import Mathlib

/-!
# Verification of the Image-Pipeline-Review-System core

Shallow embedding of the three decision engines of the repository:
the SKU canonicalizer / collision resolver (`backend/services/sku_generator.py`),
the image validation scorer and decision policy (`backend/services/image_validator.py`),
and the review-queue priority / lifecycle logic (`backend/services/review_queue.py`).

External collaborators (database, image decoder, cryptographic digest) are
modelled as explicit parameters: the store as an oracle assigning a response to
each successive insert attempt, the digest as a function from the hashed string
to the integer value the code extracts from it.  Machine floats of the Python
source are modelled as rationals; all configured scores and thresholds in the
repository are exact decimal fractions, so no rounding behavior is lost.
-/

namespace ImagePipeline

/-! ## SKU generator (`backend/services/sku_generator.py`) -/

/-- Enum `SKUStatus` (sku_generator.py lines 21-26). -/
inductive SKUStatus where
  | INSERTED
  | CONFLICT_RESOLVED
  | CONFLICT_UNRESOLVED
  | ERROR
  deriving DecidableEq, Repr

/-- Per-character model of Python `str.upper()`: ASCII lowercase letters map to
the corresponding uppercase letter, every other character is unchanged.
(Python's `upper` also maps some non-ASCII characters, but those are removed by
the `[^A-Z0-9]` filter either way.) -/
def charUpper (c : Char) : Char :=
  if 97 ≤ c.toNat ∧ c.toNat ≤ 122 then Char.ofNat (c.toNat - 32) else c

/-- Characters kept by the regex substitution `re.sub(r'[^A-Z0-9]+', '', code)`
(sku_generator.py line 85): uppercase ASCII letters and digits. -/
def allowedChar (c : Char) : Bool :=
  (65 ≤ c.toNat && c.toNat ≤ 90) || (48 ≤ c.toNat && c.toNat ≤ 57)

/-- Canonicalization core on character lists: uppercase then drop everything
outside `[A-Z0-9]`. -/
def slugChars (l : List Char) : List Char :=
  (l.map charUpper).filter allowedChar

/-- Method `SKUGenerator._slugify` (sku_generator.py lines 68-86): empty input gives
the empty slug, otherwise uppercase, strip non-alphanumerics, truncate to
`max_len`. -/
def «_slugify» (code : String) (max_len : Nat := 40) : String :=
  if code.isEmpty then "" else ⟨(slugChars code.data).take max_len⟩

/-- The base-36 alphabet of `_short_hash` (sku_generator.py line 102). -/
def base36Alphabet : List Char := "0123456789ABCDEFGHIJKLMNOPQRSTUVWXYZ".data

/-- The `while len(out) < length` loop of `_short_hash` (lines 103-107):
emit `length` base-36 digits of `val`, least significant first. -/
def base36Digits : Nat → Nat → List Char
  | 0, _ => []
  | n + 1, val => base36Alphabet.getD (val % 36) '0' :: base36Digits n (val / 36)

/-- Method `SKUGenerator._short_hash` (sku_generator.py lines 88-107), parametrized by
the integer `digestVal` that the code extracts from the SHA-1 hex digest
(`int(h[:12], 16)`); the cryptographic digest itself is an external primitive. -/
def «_short_hash» (digestVal : Nat) (length : Nat := 6) : String :=
  ⟨base36Digits length digestVal⟩

/-- Python slice `s[:k]` for a possibly negative `k`:
nonnegative `k` keeps the first `k` characters, negative `k` drops the last
`-k` characters. -/
def pySliceTo (s : String) (k : Int) : String :=
  if 0 ≤ k then ⟨s.data.take k.toNat⟩
  else ⟨s.data.take (s.data.length - (-k).toNat)⟩

/-- Constructor configuration of `SKUGenerator` (sku_generator.py lines 50-66). -/
structure SKUGenCfg where
  max_sku_length : Nat := 64
  hash_suffix_length : Nat := 6
  deriving DecidableEq, Repr

/-- Response of the external store to one `_insert_product_sku` /
`_update_product_sku` call: a boolean result, or a raised exception.  The flag
on `exn` records whether the exception was a uniqueness conflict; the
generator's `except Exception` handlers never inspect it. -/
inductive InsertResp where
  | ok (result : Bool)
  | exn (conflict : Bool)
  deriving DecidableEq, Repr

/-- Steps 2 of `generate_sku` (sku_generator.py lines 147-156): build
`"{vendor_short}-{slug}"` and, when no room is left for a suffix
(`max_sku_length - len(base) - 1 < 0`), truncate the slug to
`max_sku_length - len(vendor_short) - 2` characters and rebuild. -/
def buildBase (cfg : SKUGenCfg) (vendor_short slug : String) : String :=
  let base_candidate := vendor_short ++ "-" ++ slug
  let available_for_suffix : Int :=
    (cfg.max_sku_length : Int) - base_candidate.length - 1
  if available_for_suffix < 0 then
    let max_slug_len : Int := (cfg.max_sku_length : Int) - vendor_short.length - 2
    vendor_short ++ "-" ++ pySliceTo slug max_slug_len
  else
    base_candidate

/-- The condition under which `generate_sku` takes its slug-truncation branch
(sku_generator.py line 152). -/
def truncationTaken (cfg : SKUGenCfg) (vendor_short slug : String) : Bool :=
  (cfg.max_sku_length : Int) - ((vendor_short ++ "-" ++ slug).length : Int) - 1 < 0

/-- The `for attempt in range(max_retries)` loop of `generate_sku`
(sku_generator.py lines 171-197).  `store` maps the index of each actual store
call (across the whole `generate_sku` run) to its response; `calls` counts the
store calls already made; `trace` accumulates the candidates sent to the store.
A candidate longer than `max_sku_length` is skipped without a store call; any
exception (conflict or not) and any `False` result continue the loop. -/
def skuLoop (cfg : SKUGenCfg) (store : Nat → InsertResp) (digest : String → Nat)
    (raw_code : String) (vendor_id : Nat) (base_candidate : String) :
    Nat → Nat → Nat → List String → String × SKUStatus × List String
  | _, 0, _, trace => ("", SKUStatus.CONFLICT_UNRESOLVED, trace)
  | attempt, fuel + 1, calls, trace =>
    let hash_input := raw_code ++ ":" ++ toString vendor_id ++ ":" ++ toString attempt
    let suffix := «_short_hash» (digest hash_input) (min (cfg.hash_suffix_length + attempt) 10)
    let candidate_with_suffix := base_candidate ++ "-" ++ suffix
    if candidate_with_suffix.length > cfg.max_sku_length then
      skuLoop cfg store digest raw_code vendor_id base_candidate (attempt + 1) fuel calls trace
    else
      match store calls with
      | InsertResp.ok true =>
          (candidate_with_suffix, SKUStatus.CONFLICT_RESOLVED, trace ++ [candidate_with_suffix])
      | _ =>
          skuLoop cfg store digest raw_code vendor_id base_candidate (attempt + 1) fuel
            (calls + 1) (trace ++ [candidate_with_suffix])

/-- Method `SKUGenerator.generate_sku` (sku_generator.py lines 109-197) with
`product_id = None` (the `_update_product_sku` branch is the identical control
flow through the same store).  Returns the `(canonical_sku, status)` pair of
the source together with the list of candidates actually sent to the store, in
order; `store n` is the store's response to the `n`-th call. -/
def generate_sku (cfg : SKUGenCfg) (store : Nat → InsertResp) (digest : String → Nat)
    (raw_code : String) (vendor_id : Nat) (vendor_short : String)
    (max_retries : Nat := 5) : String × SKUStatus × List String :=
  if raw_code.isEmpty || vendor_short.isEmpty then ("", SKUStatus.ERROR, [])
  else
    let slug := «_slugify» raw_code
    if slug.isEmpty then ("", SKUStatus.ERROR, [])
    else
      let base_candidate := buildBase cfg vendor_short slug
      match store 0 with
      | InsertResp.ok true => (base_candidate, SKUStatus.INSERTED, [base_candidate])
      | _ =>
          skuLoop cfg store digest raw_code vendor_id base_candidate 0 max_retries 1
            [base_candidate]

/-! ## Image validator (`backend/services/image_validator.py`) -/

/-- Enum `ValidationStatus` (image_validator.py lines 44-49). -/
inductive ValidationStatus where
  | AUTO_ACCEPTED
  | AUTO_REJECTED
  | NEEDS_REVIEW
  | ERROR
  deriving DecidableEq, Repr

/-- Configuration of `ImageValidator` (image_validator.py lines 111-167): the five
check weights and the two decision thresholds.  Python floats are modelled as
rationals; every configured value in the repository is an exact decimal. -/
structure ValidatorCfg where
  weight_background_white : ℚ := 1/4
  weight_blur : ℚ := 3/20
  weight_object_coverage : ℚ := 1/4
  weight_object_detection : ℚ := 1/5
  weight_perceptual_similarity : ℚ := 3/20
  accept_score_threshold : ℚ := 17/20
  review_score_threshold : ℚ := 7/10
  deriving DecidableEq, Repr

/-- Method `ImageValidator._check_object_detection` (image_validator.py lines
377-392): the detector is a placeholder returning the neutral score 0.7. -/
def «_check_object_detection» : ℚ := 7/10

/-- Method `ImageValidator._check_perceptual_similarity` (image_validator.py lines
394-425), with the image-decoding and hashing externals abstracted:
`refAvailable` is true when the `imagehash` library is importable, the
reference file exists, and both hashes compute without raising;
`rawSimilarity` is the value `1.0 - diff / maxbits` computed from the hashes.
When the reference is unavailable the check returns the neutral score 0.7;
otherwise the raw similarity is clamped to `[0, 1]`. -/
def «_check_perceptual_similarity» (refAvailable : Bool) (rawSimilarity : ℚ) : ℚ :=
  if refAvailable then max 0 (min 1 rawSimilarity) else 7/10

/-- Environment supplied by the external image decoder to one
`validate_image` call: whether the candidate file exists, the scores the three
pixel-level checks produce, and the reference-hash data for
`_check_perceptual_similarity`. -/
structure ImageEnv where
  file_exists : Bool := true
  background_score : ℚ := 0
  blur_score : ℚ := 0
  coverage_score : ℚ := 0
  ref_available : Bool := false
  raw_similarity : ℚ := 0
  deriving DecidableEq, Repr

/-- Record `ValidationMetrics` (image_validator.py lines 65-75), without the
free-text `reason` and the wall-clock `execution_time_ms`. -/
structure ValidationMetrics where
  background_white_score : ℚ
  blur_score : ℚ
  object_coverage : ℚ
  perceptual_similarity : ℚ
  overall_score : ℚ
  status : ValidationStatus
  deriving DecidableEq, Repr

/-- The weighted sum of `validate_image` (image_validator.py lines 212-219). -/
def overallScore (cfg : ValidatorCfg) (bg blur cov det sim : ℚ) : ℚ :=
  cfg.weight_background_white * bg
    + cfg.weight_blur * blur
    + cfg.weight_object_coverage * cov
    + cfg.weight_object_detection * det
    + cfg.weight_perceptual_similarity * sim

/-- The decision ladder of `validate_image` (image_validator.py lines
221-230). -/
def decideStatus (cfg : ValidatorCfg) (overall : ℚ) : ValidationStatus :=
  if overall ≥ cfg.accept_score_threshold then ValidationStatus.AUTO_ACCEPTED
  else if overall ≥ cfg.review_score_threshold then ValidationStatus.NEEDS_REVIEW
  else ValidationStatus.AUTO_REJECTED

/-- The similarity-score selection of `validate_image` (image_validator.py
lines 208-210): default `1.0` when no reference path is supplied, otherwise
the result of `_check_perceptual_similarity`. -/
def similaritySelect (reference_supplied : Bool) (env : ImageEnv) : ℚ :=
  if reference_supplied then
    «_check_perceptual_similarity» env.ref_available env.raw_similarity
  else 1

/-- Method `ImageValidator.validate_image` (image_validator.py lines 169-262):
missing file short-circuits to an all-zero ERROR outcome; otherwise the five
check scores are combined by `overallScore` and classified by `decideStatus`. -/
def validate_image (cfg : ValidatorCfg) (env : ImageEnv)
    (reference_supplied : Bool) : ValidationMetrics :=
  if !env.file_exists then
    { background_white_score := 0, blur_score := 0, object_coverage := 0
      perceptual_similarity := 0, overall_score := 0
      status := ValidationStatus.ERROR }
  else
    let background_score := env.background_score
    let blur_score := env.blur_score
    let coverage_score := env.coverage_score
    let detection_score := «_check_object_detection»
    let similarity_score := similaritySelect reference_supplied env
    let overall_score :=
      overallScore cfg background_score blur_score coverage_score detection_score
        similarity_score
    { background_white_score := background_score, blur_score := blur_score
      object_coverage := coverage_score, perceptual_similarity := similarity_score
      overall_score := overall_score, status := decideStatus cfg overall_score }

/-- Strictness rank of a validation outcome: `AUTO_ACCEPTED` is the most
favorable tier, `NEEDS_REVIEW` next, `AUTO_REJECTED` the strictest of the
three decision tiers. -/
def statusRank : ValidationStatus → Nat
  | ValidationStatus.AUTO_ACCEPTED => 0
  | ValidationStatus.NEEDS_REVIEW => 1
  | ValidationStatus.AUTO_REJECTED => 2
  | ValidationStatus.ERROR => 3

/-- A concrete fully-scored decoder environment with no usable reference
image, used by the closed statements about C2. -/
def envNoRef : ImageEnv :=
  { file_exists := true, background_score := 1, blur_score := 1,
    coverage_score := 1, ref_available := false, raw_similarity := 0 }

/-- A concrete fully-scored decoder environment whose reference image is
available and identical, used by the closed statements about C2. -/
def envWithRef : ImageEnv :=
  { file_exists := true, background_score := 1, blur_score := 1,
    coverage_score := 1, ref_available := true, raw_similarity := 1 }

/-! ## Review queue (`backend/services/review_queue.py`) -/

/-- Method `ReviewQueue._compute_priority` (review_queue.py lines 425-446). -/
def «_compute_priority» (validation_score : ℚ) : Nat :=
  if validation_score < 2/5 then 1
  else if validation_score < 11/20 then 2
  else if validation_score < 7/10 then 3
  else if validation_score < 4/5 then 4
  else 5

/-- Constructor configuration of `ReviewQueue` (review_queue.py lines 123-139). -/
structure ReviewQueueCfg where
  default_sla_hours : Nat := 48
  enable_priority_assignment : Bool := true
  deriving DecidableEq, Repr

/-- Python `x or d` on an optional integer: `None` and `0` are falsy. -/
def pyOrNat (x : Option Nat) (d : Nat) : Nat :=
  match x with
  | none => d
  | some n => if n = 0 then d else n

/-- The priority and due-by computation of `ReviewQueue.create_review_task`
(review_queue.py lines 174-183): auto-computed priority when none is supplied
and auto-assignment is enabled, otherwise `priority or 3`; a due-by of
`now + timedelta(hours=sla_hours)` with `sla_hours or default_sla_hours`.
Time is measured in hours as a rational.  The task row itself goes to the
external store (the source insert is a placeholder). -/
def create_review_task (cfg : ReviewQueueCfg) (now : ℚ) (validation_score : ℚ)
    (priority : Option Nat) (sla_hours : Option Nat) : Nat × ℚ :=
  let p :=
    if priority = none ∧ cfg.enable_priority_assignment then
      «_compute_priority» validation_score
    else
      pyOrNat priority 3
  let sla := pyOrNat sla_hours cfg.default_sla_hours
  (p, now + sla)

/-! ### Review-task decision submission (run_server.py, review_queue.py)

The repository's actual task store is the module-level in-memory list
`review_tasks` of run_server.py, holding task records whose `status` field is
an open string.  The endpoint `submit_review_decision` (run_server.py lines
353-384) walks that list and, for the first task whose `id` matches,
unconditionally overwrites `task["status"]` with the submitted decision
string and reports success; only an unknown id fails with 404.  The
service-level `ReviewQueue.submit_review_decision` (review_queue.py lines
275-324) only logs and returns `True` for every input, never reading task
state. -/

/-- Enum `ReviewStatus` (review_queue.py lines 22-28). -/
inductive ReviewStatus where
  | PENDING
  | IN_PROGRESS
  | ACCEPTED
  | REJECTED
  | REQUIRES_EDIT
  deriving DecidableEq, Repr

/-- String value of each `ReviewStatus` member (review_queue.py lines
22-28). -/
def ReviewStatus.value : ReviewStatus → String
  | ReviewStatus.PENDING => "pending"
  | ReviewStatus.IN_PROGRESS => "in_progress"
  | ReviewStatus.ACCEPTED => "accepted"
  | ReviewStatus.REJECTED => "rejected"
  | ReviewStatus.REQUIRES_EDIT => "requires_edit"

/-- Whether a status string is one of the three terminal `ReviewStatus`
values. -/
def isTerminalStatus (s : String) : Bool :=
  s = ReviewStatus.ACCEPTED.value || s = ReviewStatus.REJECTED.value ||
    s = ReviewStatus.REQUIRES_EDIT.value

/-- A record of the in-memory `review_tasks` list of run_server.py, reduced
to the two fields decision submission reads and writes: the task id and the
open-string status. -/
structure ServerTask where
  id : Nat
  status : String
  deriving DecidableEq, Repr

/-- Endpoint `submit_review_decision` of run_server.py (lines 353-384): find
the first task with the requested id and overwrite its `status` with the
submitted decision string — with no check of the current status — returning
the updated store; `none` models the 404 "Task not found" for an unknown
id. -/
def server_submit_review_decision (tasks : List ServerTask)
    (review_task_id : Nat) (decision : String) : Option (List ServerTask) :=
  match tasks with
  | [] => none
  | t :: rest =>
    if t.id = review_task_id then
      some ({ t with status := decision } :: rest)
    else
      (server_submit_review_decision rest review_task_id decision).map (t :: ·)

/-- Method `ReviewQueue.submit_review_decision` (review_queue.py lines
275-324): the body only logs and returns `True` for every input — it never
reads task state and never fails on a terminal task. -/
def queue_submit_review_decision (review_task_id : Nat) (decision : String)
    (reviewer_id : Nat) : Bool :=
  true

/-! ## Concrete instances for closed statements -/

/-- A 63-character vendor namespace, used by the closed statement about C6. -/
def longVendor : String :=
  "AAAAAAAAAAAAAAAAAAAAAAAAAAAAAAAAAAAAAAAAAAAAAAAAAAAAAAAAAAAAAAA"

/-- Configuration with `max_sku_length = 12`, used by the closed statements
about C7. -/
def cfg12 : SKUGenCfg := { max_sku_length := 12, hash_suffix_length := 6 }

/-! ## Helper lemmas -/

theorem charUpper_of_allowed {c : Char} (h : allowedChar c = true) :
    charUpper c = c := by
  simp only [allowedChar, Bool.or_eq_true, Bool.and_eq_true,
    decide_eq_true_eq] at h
  have h' : ¬(97 ≤ c.toNat ∧ c.toNat ≤ 122) := by omega
  simp [charUpper, h']

theorem slugChars_of_allowed {l : List Char}
    (h : ∀ c ∈ l, allowedChar c = true) : slugChars l = l := by
  unfold slugChars
  rw [List.map_congr_left fun c hc => charUpper_of_allowed (h c hc),
    List.map_id', List.filter_eq_self.mpr h]

theorem allowed_of_mem_slugChars {c : Char} {l : List Char}
    (h : c ∈ slugChars l) : allowedChar c = true :=
  (List.mem_filter.mp h).2

theorem string_length_append (a b : String) :
    (a ++ b).length = a.length + b.length := by
  cases a; cases b
  simp [String.length, String.instAppend, String.append]

theorem string_mk_isEmpty_iff (l : List Char) :
    (String.mk l).isEmpty = true ↔ l = [] := by
  rw [String.isEmpty_iff]
  constructor
  · intro h
    have : (String.mk l).data = ("" : String).data := by rw [h]
    simpa using this
  · intro h
    subst h
    rfl

theorem empty_string_isEmpty : "".isEmpty = true := rfl

/-! ## The claims -/

/-- C9: canonicalization is idempotent and length-bounded — for every string
`x` and every maximum length `n`, `_slugify (_slugify x n) n = _slugify x n`
and `(_slugify x n).length ≤ n`. -/
theorem c9_slugify_idempotent_length_bounded (x : String) (n : Nat) :
    «_slugify» («_slugify» x n) n = «_slugify» x n ∧
      («_slugify» x n).length ≤ n := by
  unfold «_slugify»
  by_cases hx : x.isEmpty
  · simp [hx, empty_string_isEmpty]
  · simp only [hx, Bool.false_eq_true, if_false]
    constructor
    · by_cases hempty : (slugChars x.data).take n = []
      · rw [hempty]
        rfl
      · have hcond : ¬((String.mk ((slugChars x.data).take n)).isEmpty = true) := by
          rw [string_mk_isEmpty_iff]
          exact hempty
        rw [if_neg hcond]
        have hall : ∀ c ∈ (slugChars x.data).take n, allowedChar c = true :=
          fun c hc => allowed_of_mem_slugChars (List.mem_of_mem_take hc)
        have hS : slugChars ((slugChars x.data).take n) =
            (slugChars x.data).take n := slugChars_of_allowed hall
        show String.mk ((slugChars ((slugChars x.data).take n)).take n) =
          String.mk ((slugChars x.data).take n)
        rw [hS, List.take_take, Nat.min_self]
    · simp [List.length_take_le n (slugChars x.data)]

/-- C10: validation failure in `generate_sku` is atomic — empty `raw_code`,
empty `vendor_short`, or an empty slug yields `("", ERROR)` with an empty
store-call trace, so no insert or update is ever attempted. -/
theorem c10_validation_error_atomic (cfg : SKUGenCfg) (store : Nat → InsertResp)
    (digest : String → Nat) (raw_code : String) (vendor_id : Nat)
    (vendor_short : String) (max_retries : Nat)
    (h : raw_code.isEmpty = true ∨ vendor_short.isEmpty = true ∨
      («_slugify» raw_code).isEmpty = true) :
    generate_sku cfg store digest raw_code vendor_id vendor_short max_retries =
      ("", SKUStatus.ERROR, []) := by
  unfold generate_sku
  rcases h with h | h | h
  · simp [h]
  · simp [h]
  · by_cases h1 : raw_code.isEmpty || vendor_short.isEmpty
    · simp [h1]
    · simp [h1, h]

/-- Closed witness for C10 at the concrete input `raw_code = "---"` (slug
canonicalizes to empty). -/
theorem c10_validation_error_atomic_witness :
    generate_sku {} (fun _ => InsertResp.ok true) (fun _ => 0) "---" 1 "BRIT" 5 =
      ("", SKUStatus.ERROR, []) :=
  c10_validation_error_atomic {} (fun _ => InsertResp.ok true) (fun _ => 0)
    "---" 1 "BRIT" 5 (Or.inr (Or.inr (by decide)))

/-- C4: the decision policy is total with inclusive boundaries — for every
score in `[0, 1]` and thresholds with `accept > review`, the status is
`AUTO_ACCEPTED` iff `score ≥ accept`, `NEEDS_REVIEW` iff
`review ≤ score < accept`, and `AUTO_REJECTED` iff `score < review`; the three
conditions are mutually exclusive and exhaustive, so exactly one status is
assigned. -/
theorem c4_decision_policy_total (cfg : ValidatorCfg) (score : ℚ)
    (hts : cfg.review_score_threshold < cfg.accept_score_threshold)
    (_h0 : 0 ≤ score) (_h1 : score ≤ 1) :
    (decideStatus cfg score = ValidationStatus.AUTO_ACCEPTED ↔
        cfg.accept_score_threshold ≤ score) ∧
    (decideStatus cfg score = ValidationStatus.NEEDS_REVIEW ↔
        cfg.review_score_threshold ≤ score ∧
          score < cfg.accept_score_threshold) ∧
    (decideStatus cfg score = ValidationStatus.AUTO_REJECTED ↔
        score < cfg.review_score_threshold) := by
  unfold decideStatus
  split_ifs with ha hr
  · refine ⟨by simp [ha], ?_, by simp; linarith⟩
    simp only [iff_def]
    constructor
    · intro h
      cases h
    · intro h
      linarith [h.2]
  · refine ⟨by simp; linarith, by simp [ha, hr]; linarith, ?_⟩
    simp only [iff_def]
    constructor
    · intro h
      cases h
    · intro h
      linarith
  · refine ⟨by simp; linarith, ?_, by simp; linarith⟩
    simp only [iff_def]
    constructor
    · intro h
      cases h
    · intro h
      linarith [h.1]

/-- Closed witness for C4 at the default thresholds and score `0.72`. -/
theorem c4_decision_policy_total_witness :
    decideStatus {} (72/100) = ValidationStatus.NEEDS_REVIEW :=
  ((c4_decision_policy_total {} (72/100) (by norm_num) (by norm_num)
    (by norm_num)).2.1).mpr (by norm_num)

/-- C8: `create_review_task` without a priority override assigns priority by
the documented score bands, and sets the due-by time to creation time plus the
SLA (default 48 hours); in particular score `0.72` yields priority 4 and a
due-by exactly 48 hours after creation. -/
theorem c8_priority_bands_and_sla (now score : ℚ) :
    (score < 2/5 → (create_review_task {} now score none none).1 = 1) ∧
    (2/5 ≤ score → score < 11/20 →
      (create_review_task {} now score none none).1 = 2) ∧
    (11/20 ≤ score → score < 7/10 →
      (create_review_task {} now score none none).1 = 3) ∧
    (7/10 ≤ score → score < 4/5 →
      (create_review_task {} now score none none).1 = 4) ∧
    (4/5 ≤ score → (create_review_task {} now score none none).1 = 5) ∧
    (create_review_task {} now score none none).2 = now + 48 ∧
    create_review_task {} now (72/100) none none = (4, now + 48) := by
  have hcpr : ∀ s : ℚ, (create_review_task {} now s none none) =
      («_compute_priority» s, now + 48) := by
    intro s
    simp [create_review_task, pyOrNat]
  refine ⟨?_, ?_, ?_, ?_, ?_, ?_, ?_⟩
  · intro h1
    rw [hcpr]
    show «_compute_priority» score = 1
    unfold «_compute_priority»
    split_ifs <;> first | rfl | linarith
  · intro h1 h2
    rw [hcpr]
    show «_compute_priority» score = 2
    unfold «_compute_priority»
    split_ifs <;> first | rfl | linarith
  · intro h1 h2
    rw [hcpr]
    show «_compute_priority» score = 3
    unfold «_compute_priority»
    split_ifs <;> first | rfl | linarith
  · intro h1 h2
    rw [hcpr]
    show «_compute_priority» score = 4
    unfold «_compute_priority»
    split_ifs <;> first | rfl | linarith
  · intro h1
    rw [hcpr]
    show «_compute_priority» score = 5
    unfold «_compute_priority»
    split_ifs <;> first | rfl | linarith
  · rw [hcpr]
  · rw [hcpr]
    norm_num [«_compute_priority»]

/-- Closed witness for C8: scores `0.72` and `0.30` at creation time zero. -/
theorem c8_priority_bands_and_sla_witness :
    create_review_task {} 0 (72/100) none none = (4, 0 + 48) ∧
    (create_review_task {} 0 (3/10) none none).1 = 1 :=
  ⟨(c8_priority_bands_and_sla 0 (72/100)).2.2.2.2.2.2,
    (c8_priority_bands_and_sla 0 (3/10)).1 (by norm_num)⟩

/-- C2 counterexample: with no reference image supplied the pipeline
contributes a perceptual-similarity score of `1.0` to the weighted overall
score, not the neutral default `0.7` that `_check_perceptual_similarity`
returns for a supplied-but-unavailable reference. -/
theorem c2_no_reference_counterexample :
    (validate_image {} envNoRef false).perceptual_similarity = 1 ∧
    «_check_perceptual_similarity» false 0 = 7/10 ∧
    (validate_image {} envNoRef false).overall_score = 94/100 ∧
    overallScore {} 1 1 1 «_check_object_detection» (7/10) = 895/1000 ∧
    (94/100 : ℚ) ≠ 895/1000 := by
  refine ⟨rfl, rfl, ?_, ?_, by norm_num⟩
  · show overallScore {} 1 1 1 «_check_object_detection» 1 = 94/100
    norm_num [overallScore, «_check_object_detection»,
      ValidatorCfg.weight_background_white, ValidatorCfg.weight_blur,
      ValidatorCfg.weight_object_coverage, ValidatorCfg.weight_object_detection,
      ValidatorCfg.weight_perceptual_similarity]
  · norm_num [overallScore, «_check_object_detection»,
      ValidatorCfg.weight_background_white, ValidatorCfg.weight_blur,
      ValidatorCfg.weight_object_coverage, ValidatorCfg.weight_object_detection,
      ValidatorCfg.weight_perceptual_similarity]

/-- C2 amended: for every run that reaches scoring, an absent reference path
contributes the constant perfect score `1.0` (not the neutral `0.7`), while a
supplied-but-unavailable reference contributes the neutral `0.7`; the overall
score is the weighted sum with that similarity value. -/
theorem c2_no_reference_amended (cfg : ValidatorCfg) (env : ImageEnv)
    (h : env.file_exists = true) :
    (validate_image cfg env false).perceptual_similarity = 1 ∧
    (validate_image cfg { env with ref_available := false }
        true).perceptual_similarity = 7/10 ∧
    (validate_image cfg env false).overall_score =
      overallScore cfg env.background_score env.blur_score env.coverage_score
        «_check_object_detection» 1 := by
  unfold validate_image similaritySelect «_check_perceptual_similarity»
  simp [h]

/-- Closed witness for C2 amended at a concrete environment. -/
theorem c2_no_reference_amended_witness :
    (validate_image {} envWithRef false).perceptual_similarity = 1 ∧
    (validate_image {} { envWithRef with ref_available := false }
        true).perceptual_similarity = 7/10 ∧
    (validate_image {} envWithRef false).overall_score =
      overallScore {} envWithRef.background_score envWithRef.blur_score
        envWithRef.coverage_score «_check_object_detection» 1 :=
  c2_no_reference_amended {} envWithRef rfl

theorem server_submit_isSome_iff (tasks : List ServerTask) (tid : Nat)
    (d : String) :
    (server_submit_review_decision tasks tid d).isSome = true ↔
      ∃ t ∈ tasks, t.id = tid := by
  induction tasks with
  | nil => simp [server_submit_review_decision]
  | cons t rest ih =>
    by_cases h : t.id = tid
    · simp [server_submit_review_decision, h]
    · simp [server_submit_review_decision, h, ih]

/-- C3 counterexample: the repository records a second terminal decision — on
the in-memory task store a task already in the terminal status `"accepted"`
accepts the new decision `"rejected"`, which succeeds and overwrites the
first, and the service-level method likewise reports success; nothing fails
on a terminal task. -/
theorem c3_no_terminal_guard_counterexample :
    isTerminalStatus "accepted" = true ∧
    server_submit_review_decision [{ id := 1, status := "accepted" }] 1
        "rejected" = some [{ id := 1, status := "rejected" }] ∧
    queue_submit_review_decision 1 "rejected" 42 = true := by
  refine ⟨?_, ?_, ?_⟩ <;> decide

/-- C3 amended: `submit_review_decision` never fails because a task is
terminal — the server endpoint succeeds exactly when some stored task has the
requested id, in which case it overwrites the first matching task's status
with the new decision string (terminal or not, so a task can receive several
terminal decisions, last write wins), and the service-level
`ReviewQueue.submit_review_decision` returns `True` for every input; only an
unknown task id fails. -/
theorem c3_no_terminal_guard_amended (tasks : List ServerTask) (tid : Nat)
    (d : String) (reviewer_id : Nat) :
    ((server_submit_review_decision tasks tid d).isSome = true ↔
      ∃ t ∈ tasks, t.id = tid) ∧
    (∀ (pre : List ServerTask) (t : ServerTask) (post : List ServerTask),
      tasks = pre ++ t :: post → t.id = tid → (∀ u ∈ pre, u.id ≠ tid) →
      server_submit_review_decision tasks tid d =
        some (pre ++ { t with status := d } :: post)) ∧
    queue_submit_review_decision tid d reviewer_id = true := by
  refine ⟨server_submit_isSome_iff tasks tid d, ?_, rfl⟩
  intro pre
  induction pre generalizing tasks with
  | nil =>
    intro t post heq htid _
    subst heq
    simp [server_submit_review_decision, htid]
  | cons u pre ih =>
    intro t post heq htid hpre
    subst heq
    have hu : ¬(u.id = tid) := hpre u (by simp)
    simp only [List.cons_append, server_submit_review_decision, hu, if_false,
      List.append_eq]
    rw [ih (pre ++ t :: post) t post rfl htid
      (fun v hv => hpre v (List.mem_cons_of_mem u hv))]
    rfl

theorem statusRank_antitone (cfg : ValidatorCfg) {a b : ℚ} (h : a ≤ b) :
    statusRank (decideStatus cfg b) ≤ statusRank (decideStatus cfg a) := by
  unfold decideStatus
  split_ifs <;> simp [statusRank] <;> linarith

/-- C5: single-coordinate monotonicity of the outcome — if two check-score
vectors in `[0,1]^5` agree except that one check's score increases, then under
non-negative weights the outcome tier never becomes stricter.  The ten scores
are listed in the order of the source's weighted sum: background, blur,
coverage, detection, similarity. -/
theorem c5_single_check_monotone (cfg : ValidatorCfg)
    (bg blur cov det sim bg' blur' cov' det' sim' : ℚ)
    (hw0 : 0 ≤ cfg.weight_background_white) (hw1 : 0 ≤ cfg.weight_blur)
    (hw2 : 0 ≤ cfg.weight_object_coverage)
    (hw3 : 0 ≤ cfg.weight_object_detection)
    (hw4 : 0 ≤ cfg.weight_perceptual_similarity)
    (_hbox : 0 ≤ bg ∧ bg ≤ 1 ∧ 0 ≤ blur ∧ blur ≤ 1 ∧ 0 ≤ cov ∧ cov ≤ 1 ∧
      0 ≤ det ∧ det ≤ 1 ∧ 0 ≤ sim ∧ sim ≤ 1)
    (_hbox' : 0 ≤ bg' ∧ bg' ≤ 1 ∧ 0 ≤ blur' ∧ blur' ≤ 1 ∧ 0 ≤ cov' ∧
      cov' ≤ 1 ∧ 0 ≤ det' ∧ det' ≤ 1 ∧ 0 ≤ sim' ∧ sim' ≤ 1)
    (hdiff :
      (bg ≤ bg' ∧ blur' = blur ∧ cov' = cov ∧ det' = det ∧ sim' = sim) ∨
      (bg' = bg ∧ blur ≤ blur' ∧ cov' = cov ∧ det' = det ∧ sim' = sim) ∨
      (bg' = bg ∧ blur' = blur ∧ cov ≤ cov' ∧ det' = det ∧ sim' = sim) ∨
      (bg' = bg ∧ blur' = blur ∧ cov' = cov ∧ det ≤ det' ∧ sim' = sim) ∨
      (bg' = bg ∧ blur' = blur ∧ cov' = cov ∧ det' = det ∧ sim ≤ sim')) :
    statusRank (decideStatus cfg (overallScore cfg bg' blur' cov' det' sim')) ≤
      statusRank (decideStatus cfg (overallScore cfg bg blur cov det sim)) := by
  apply statusRank_antitone
  unfold overallScore
  rcases hdiff with ⟨h, rfl, rfl, rfl, rfl⟩ | ⟨rfl, h, rfl, rfl, rfl⟩ |
    ⟨rfl, rfl, h, rfl, rfl⟩ | ⟨rfl, rfl, rfl, h, rfl⟩ | ⟨rfl, rfl, rfl, rfl, h⟩
  · have := mul_le_mul_of_nonneg_left h hw0
    linarith
  · have := mul_le_mul_of_nonneg_left h hw1
    linarith
  · have := mul_le_mul_of_nonneg_left h hw2
    linarith
  · have := mul_le_mul_of_nonneg_left h hw3
    linarith
  · have := mul_le_mul_of_nonneg_left h hw4
    linarith

/-- Closed witness for C5: raising the background score from `0.5` to `0.9`
with the four other checks fixed at `0.5`. -/
theorem c5_single_check_monotone_witness :
    statusRank
        (decideStatus {}
          (overallScore {} (9/10) (1/2) (1/2) (1/2) (1/2))) ≤
      statusRank
        (decideStatus {}
          (overallScore {} (1/2) (1/2) (1/2) (1/2) (1/2))) :=
  c5_single_check_monotone {} (1/2) (1/2) (1/2) (1/2) (1/2) (9/10) (1/2) (1/2)
    (1/2) (1/2) (by norm_num) (by norm_num) (by norm_num) (by norm_num)
    (by norm_num) (by norm_num) (by norm_num)
    (Or.inl (by norm_num))

/-- Closed witness for C3 amended: a store holding one already-accepted task
accepts and records a new decision. -/
theorem c3_no_terminal_guard_amended_witness :
    server_submit_review_decision [{ id := 1, status := "accepted" }] 1
        "rejected" =
      some ([] ++ { id := 1, status := "rejected" } :: []) :=
  (c3_no_terminal_guard_amended [{ id := 1, status := "accepted" }] 1
    "rejected" 42).2.1 [] { id := 1, status := "accepted" } [] rfl rfl
    (by simp)

theorem string_length_data (s : String) : s.data.length = s.length := rfl

theorem buildBase_def (cfg : SKUGenCfg) (v s : String) :
    buildBase cfg v s =
      if (cfg.max_sku_length : Int) - ((v ++ "-" ++ s).length : Int) - 1 < 0 then
        v ++ "-" ++ pySliceTo s ((cfg.max_sku_length : Int) - v.length - 2)
      else v ++ "-" ++ s := rfl

theorem buildBase_length (cfg : SKUGenCfg) (v s : String)
    (hv : v.length + 2 ≤ cfg.max_sku_length) :
    (buildBase cfg v s).length ≤ cfg.max_sku_length := by
  rw [buildBase_def]
  split_ifs with h
  · rw [string_length_append, string_length_append]
    unfold pySliceTo
    rw [if_pos (by push_cast; omega)]
    simp only [String.mk_length, List.length_take]
    have hone : ("-" : String).length = 1 := rfl
    have hvd : v.data.length = v.length := rfl
    omega
  · have h' : (v ++ "-" ++ s).length + 1 ≤ cfg.max_sku_length := by
      push_cast at h
      omega
    omega

theorem skuLoop_resolved_length (cfg : SKUGenCfg) (store : Nat → InsertResp)
    (digest : String → Nat) (raw_code : String) (vendor_id : Nat)
    (base_candidate : String) :
    ∀ (fuel attempt calls : Nat) (trace : List String)
      (res : String × SKUStatus × List String),
      skuLoop cfg store digest raw_code vendor_id base_candidate attempt fuel
        calls trace = res →
      res.2.1 = SKUStatus.INSERTED ∨ res.2.1 = SKUStatus.CONFLICT_RESOLVED →
      res.1.length ≤ cfg.max_sku_length := by
  intro fuel
  induction fuel with
  | zero =>
    intro attempt calls trace res heq hst
    rw [skuLoop] at heq
    subst heq
    rcases hst with h | h <;> cases h
  | succ fuel ih =>
    intro attempt calls trace res heq hst
    simp only [skuLoop] at heq
    split at heq
    · exact ih _ _ _ _ heq hst
    · split at heq
      · subst heq
        simp only at hst ⊢
        omega
      · exact ih _ _ _ _ heq hst

/-- C6 counterexample: with the default `max_sku_length = 64`, a 63-character
vendor namespace and `raw_code = "BRIT10G"` yield an INSERTED canonical
identifier of length 70, exceeding `max_sku_length` — the negative-slice
truncation arithmetic rebuilds an over-length base. -/
theorem c6_sku_length_counterexample :
    (generate_sku {} (fun _ => InsertResp.ok true) (fun _ => 0) "BRIT10G" 1
        longVendor 5).2.1 = SKUStatus.INSERTED ∧
    (generate_sku {} (fun _ => InsertResp.ok true) (fun _ => 0) "BRIT10G" 1
        longVendor 5).1.length = 70 ∧
    ¬((generate_sku {} (fun _ => InsertResp.ok true) (fun _ => 0) "BRIT10G" 1
        longVendor 5).1.length ≤ ({} : SKUGenCfg).max_sku_length) := by
  refine ⟨?_, ?_, ?_⟩ <;> decide

/-- C6 amended: provided the vendor namespace leaves room for the separator
and at least one slug character (`len(vendor_short) + 2 ≤ max_sku_length`),
every canonical identifier returned with outcome INSERTED or
CONFLICT_RESOLVED has length at most `max_sku_length`. -/
theorem c6_sku_length_amended (cfg : SKUGenCfg) (store : Nat → InsertResp)
    (digest : String → Nat) (raw_code : String) (vendor_id : Nat)
    (vendor_short : String) (max_retries : Nat)
    (hv : vendor_short.length + 2 ≤ cfg.max_sku_length)
    (hst : (generate_sku cfg store digest raw_code vendor_id vendor_short
        max_retries).2.1 = SKUStatus.INSERTED ∨
      (generate_sku cfg store digest raw_code vendor_id vendor_short
        max_retries).2.1 = SKUStatus.CONFLICT_RESOLVED) :
    (generate_sku cfg store digest raw_code vendor_id vendor_short
      max_retries).1.length ≤ cfg.max_sku_length := by
  by_cases h1 : raw_code.isEmpty || vendor_short.isEmpty
  · simp [generate_sku, h1] at hst
  · by_cases h2 : («_slugify» raw_code).isEmpty
    · simp [generate_sku, h1, h2] at hst
    · cases hs : store 0 with
      | ok b =>
        cases b with
        | true =>
          simp only [generate_sku, h1, h2, hs, Bool.false_eq_true, if_false] at hst ⊢
          exact buildBase_length cfg vendor_short («_slugify» raw_code) hv
        | false =>
          simp only [generate_sku, h1, h2, hs, Bool.false_eq_true, if_false] at hst ⊢
          exact skuLoop_resolved_length cfg store digest raw_code vendor_id _
            max_retries 0 1 _ _ rfl hst
      | exn c =>
        simp only [generate_sku, h1, h2, hs, Bool.false_eq_true, if_false] at hst ⊢
        exact skuLoop_resolved_length cfg store digest raw_code vendor_id _
          max_retries 0 1 _ _ rfl hst

/-- Closed witness for C6 amended: the default configuration with vendor
namespace `"BRIT"`. -/
theorem c6_sku_length_amended_witness :
    (generate_sku {} (fun _ => InsertResp.ok true) (fun _ => 0) "BRIT10G" 1
      "BRIT" 5).1.length ≤ ({} : SKUGenCfg).max_sku_length :=
  c6_sku_length_amended {} (fun _ => InsertResp.ok true) (fun _ => 0)
    "BRIT10G" 1 "BRIT" 5 (by decide) (Or.inl (by decide))

/-- C7 counterexample: with `max_sku_length = 12`, vendor `"BRIT"` and slug
`"BRIT10G"` the base `"BRIT-BRIT10G"` has length exactly 12 — it does not
exceed the maximum — yet the truncation branch is taken, and the rebuilt base
`"BRIT-BRIT10"` has length 11, not `max_sku_length`. -/
theorem c7_truncation_counterexample :
    truncationTaken cfg12 "BRIT" "BRIT10G" = true ∧
    ¬(("BRIT" ++ "-" ++ "BRIT10G").length > cfg12.max_sku_length) ∧
    buildBase cfg12 "BRIT" "BRIT10G" = "BRIT-BRIT10" ∧
    ¬((buildBase cfg12 "BRIT" "BRIT10G").length = cfg12.max_sku_length) := by
  refine ⟨?_, ?_, ?_, ?_⟩ <;> decide

/-- C7 amended: the truncation branch is taken exactly when the base reaches
or exceeds `max_sku_length` (that is, when `len(base) + 1 > max_sku_length`),
and — when the vendor namespace leaves room
(`len(vendor_short) + 2 ≤ max_sku_length`) — the rebuilt base has length
exactly `max_sku_length - 1`, one character short of the maximum, reserving
the separator for a collision suffix. -/
theorem c7_truncation_amended (cfg : SKUGenCfg) (vendor_short slug : String)
    (hv : vendor_short.length + 2 ≤ cfg.max_sku_length) :
    (truncationTaken cfg vendor_short slug = true ↔
      cfg.max_sku_length ≤ (vendor_short ++ "-" ++ slug).length) ∧
    (truncationTaken cfg vendor_short slug = true →
      (buildBase cfg vendor_short slug).length = cfg.max_sku_length - 1) := by
  have hiff : truncationTaken cfg vendor_short slug = true ↔
      cfg.max_sku_length ≤ (vendor_short ++ "-" ++ slug).length := by
    unfold truncationTaken
    rw [decide_eq_true_eq]
    omega
  refine ⟨hiff, ?_⟩
  intro ht
  have hge := hiff.mp ht
  rw [buildBase_def, if_pos (by push_cast; omega)]
  rw [string_length_append, string_length_append]
  unfold pySliceTo
  rw [if_pos (by push_cast; omega)]
  simp only [String.mk_length, List.length_take]
  have hslug : cfg.max_sku_length ≤
      vendor_short.length + 1 + slug.length := by
    rw [string_length_append, string_length_append] at hge
    have hone : ("-" : String).length = 1 := rfl
    omega
  have hone : ("-" : String).length = 1 := rfl
  have hvd : vendor_short.data.length = vendor_short.length := rfl
  have hsd : slug.data.length = slug.length := rfl
  omega

/-- Closed witness for C7 amended at `max_sku_length = 12`, vendor `"BRIT"`,
slug `"BRIT10G"`. -/
theorem c7_truncation_amended_witness :
    (truncationTaken cfg12 "BRIT" "BRIT10G" = true ↔
      cfg12.max_sku_length ≤ ("BRIT" ++ "-" ++ "BRIT10G").length) ∧
    (truncationTaken cfg12 "BRIT" "BRIT10G" = true →
      (buildBase cfg12 "BRIT" "BRIT10G").length = cfg12.max_sku_length - 1) :=
  c7_truncation_amended cfg12 "BRIT" "BRIT10G" (by decide)

/-- C1 counterexample: a store whose every call raises a NON-conflict error
(`InsertResp.exn false`).  The generator still makes all six insert attempts
(the base plus five suffixed candidates, listed in its call trace) and ends in
`CONFLICT_UNRESOLVED` — the error is retried and reported as a conflict
outcome, never surfaced as a distinct error kind. -/
theorem c1_store_error_counterexample :
    generate_sku {} (fun _ => InsertResp.exn false) (fun _ => 0)
        "BRIT10G" 1 "BRIT" 5 =
      ("", SKUStatus.CONFLICT_UNRESOLVED,
        ["BRIT-BRIT10G", "BRIT-BRIT10G-000000", "BRIT-BRIT10G-0000000",
          "BRIT-BRIT10G-00000000", "BRIT-BRIT10G-000000000",
          "BRIT-BRIT10G-0000000000"]) ∧
    (generate_sku {} (fun _ => InsertResp.exn false) (fun _ => 0)
        "BRIT10G" 1 "BRIT" 5).2.2.length = 6 := by
  refine ⟨?_, ?_⟩ <;> decide

theorem skuLoop_all_errors (cfg : SKUGenCfg) (store : Nat → InsertResp)
    (digest : String → Nat) (raw_code : String) (vendor_id : Nat)
    (base_candidate : String)
    (herr : ∀ n, ∃ b, store n = InsertResp.exn b) :
    ∀ (fuel attempt calls : Nat) (trace : List String),
      (skuLoop cfg store digest raw_code vendor_id base_candidate attempt fuel
        calls trace).1 = "" ∧
      (skuLoop cfg store digest raw_code vendor_id base_candidate attempt fuel
        calls trace).2.1 = SKUStatus.CONFLICT_UNRESOLVED := by
  intro fuel
  induction fuel with
  | zero =>
    intro attempt calls trace
    rw [skuLoop]
    exact ⟨rfl, rfl⟩
  | succ fuel ih =>
    intro attempt calls trace
    simp only [skuLoop]
    split
    · exact ih _ _ _
    · obtain ⟨b, hb⟩ := herr calls
      rw [hb]
      exact ih _ _ _

/-- C1 amended: the generator's `except Exception` handlers treat every store
error identically to a uniqueness conflict — the error is caught, the
collision loop keeps retrying, and when every call errors (with any mix of
conflict and non-conflict exceptions) the result is the empty identifier with
status `CONFLICT_UNRESOLVED`; no distinct error kind is ever surfaced. -/
theorem c1_store_error_amended (cfg : SKUGenCfg) (store : Nat → InsertResp)
    (digest : String → Nat) (raw_code : String) (vendor_id : Nat)
    (vendor_short : String) (max_retries : Nat)
    (hr : raw_code.isEmpty = false) (hvs : vendor_short.isEmpty = false)
    (hs : («_slugify» raw_code).isEmpty = false)
    (herr : ∀ n, ∃ b, store n = InsertResp.exn b) :
    (generate_sku cfg store digest raw_code vendor_id vendor_short
      max_retries).1 = "" ∧
    (generate_sku cfg store digest raw_code vendor_id vendor_short
      max_retries).2.1 = SKUStatus.CONFLICT_UNRESOLVED := by
  obtain ⟨b, hb⟩ := herr 0
  simp only [generate_sku, hr, hvs, hs, Bool.or_self, Bool.false_eq_true,
    if_false, hb]
  exact skuLoop_all_errors cfg store digest raw_code vendor_id _ herr
    max_retries 0 1 _

/-- Closed witness for C1 amended: every call raises a non-conflict error. -/
theorem c1_store_error_amended_witness :
    (generate_sku {} (fun _ => InsertResp.exn false) (fun _ => 0)
      "BRIT10G" 1 "BRIT" 5).1 = "" ∧
    (generate_sku {} (fun _ => InsertResp.exn false) (fun _ => 0)
      "BRIT10G" 1 "BRIT" 5).2.1 = SKUStatus.CONFLICT_UNRESOLVED :=
  c1_store_error_amended {} (fun _ => InsertResp.exn false) (fun _ => 0)
    "BRIT10G" 1 "BRIT" 5 (by decide) (by decide) (by decide)
    (fun _ => ⟨false, rfl⟩)

end ImagePipeline
